import Mathlib

/-!
Verification development for the YandexImageCrawler repository.

This file gives a shallow embedding, in Lean 4, of the control-flow and data
logic of `src/safe_crawler.py` and `src/yandex_crawler_gui.py`:

* the producer loop of `SafeYandexCrawler.run` (error budget, backoff,
  liveness flag, driver lifecycle),
* Python attribute resolution for the name-mangled private method accessed
  in `SafeYandexCrawler.run`,
* the shared liveness flag `is_active` and every write site to it,
* the monitor loop of `safe_download` (timeout handling),
* the bounded work queue created by `safe_download`,
* the per-item download/filter/dedup logic and the download loop of
  `YandexCrawlerGUI.download_images`,
* the `--size` argument handling in `safe_crawler.main`.

Machine integers are modelled as `Nat`/`Int`; external effects (WebDriver
calls, HTTP fetches, image decoding) are modelled by the data they return,
supplied as explicit trace inputs.
-/

/- ### Producer model: `SafeYandexCrawler.run` (src/safe_crawler.py lines 55-91) -/

/-- Outcome of one iteration body of the producer loop: the pair of calls
`self._YandexCrawler__get_image_link(); self._YandexCrawler__open_next_preview()`
(lines 76-77) either completes (a work item was extracted and enqueued) or
raises an exception (line 80). -/
inductive IterResult where
  | success : IterResult
  | failure : IterResult
deriving DecidableEq, Repr

/-- Observable state of one `SafeYandexCrawler` producer process.
`consecutiveErrors` is the instance attribute `self.consecutive_errors`;
`isActive` is the shared flag `self.is_active.value`; `shouldExit` is the
module-global `should_exit` as seen by this process; `driverOpen` records
whether `self.driver.close()` has been called; `terminated` records that
`run` has returned; `enqueued` counts work items put on the load queue by a
completed iteration; `sleepLog` records the durations of the `time.sleep`
backoff calls (line 91); `criticalLogs` counts `logger.critical` calls. -/
structure PState where
  consecutiveErrors : Nat
  isActive : Bool
  shouldExit : Bool
  driverOpen : Bool
  terminated : Bool
  enqueued : Nat
  sleepLog : List Nat
  criticalLogs : Nat
deriving DecidableEq, Repr

/-- The `while True` loop of `SafeYandexCrawler.run` (lines 69-91), run on a
finite trace `rs` of iteration outcomes.  Each pass first re-checks the flag
(line 70) and, if it is lowered, closes the driver and returns (lines 71-73).
A completed iteration resets `consecutive_errors` to 0 (line 79).  A failed
iteration increments it and logs (lines 81-82); if the count has reached
`max_errors` the process logs again, lowers the flag, closes the driver and
returns (lines 84-89), otherwise it sleeps 2 seconds and retries (line 91).
An exhausted trace (`[]`) leaves the loop still running with the current
state. -/
def runLoop (maxErrors : Nat) (rs : List IterResult) (s : PState) : PState :=
  if !s.isActive || s.shouldExit then
    { s with driverOpen := false, terminated := true }
  else
    match rs with
    | [] => s
    | .success :: rest =>
        runLoop maxErrors rest
          { s with consecutiveErrors := 0, enqueued := s.enqueued + 1 }
    | .failure :: rest =>
        if maxErrors ≤ s.consecutiveErrors + 1 then
          { s with consecutiveErrors := s.consecutiveErrors + 1,
                   criticalLogs := s.criticalLogs + 2,
                   isActive := false, shouldExit := true,
                   driverOpen := false, terminated := true }
        else
          runLoop maxErrors rest
            { s with consecutiveErrors := s.consecutiveErrors + 1,
                     criticalLogs := s.criticalLogs + 1,
                     sleepLog := s.sleepLog ++ [2] }

/-- Outcome of the `try` block around
`self._SafeYandexCrawler__open_first_preview()` (lines 59-60): `ok` when the
attribute resolves and the call completes, `error` when any exception
(including `AttributeError`) is raised. -/
inductive InitResult where
  | ok : InitResult
  | error : InitResult
deriving DecidableEq, Repr

/-- The method `SafeYandexCrawler.run` (lines 55-91).  If the initial
open-first-preview step raises, the handler (lines 61-67) logs critically,
lowers the shared flag, sets `should_exit`, closes the driver and returns
without entering the loop; otherwise the iteration loop runs. -/
def runProducer (maxErrors : Nat) (init : InitResult) (rs : List IterResult)
    (s : PState) : PState :=
  match init with
  | .error =>
      { s with criticalLogs := s.criticalLogs + 1,
               isActive := false, shouldExit := true,
               driverOpen := false, terminated := true }
  | .ok => runLoop maxErrors rs s

/- ### Python attribute resolution for `_SafeYandexCrawler__open_first_preview` -/

/-- Python name mangling: inside class `cls`, an identifier with two leading
underscores (and at most one trailing underscore) is stored as
`_<cls><identifier>`. -/
def mangled (cls ident : String) : String :=
  "_" ++ cls ++ ident

/-- Attributes contributed by the class body of `SafeYandexCrawler`
(src/safe_crawler.py lines 46-91): it defines exactly the methods
`__init__` (line 50) and `run` (line 55); neither is subject to name
mangling. -/
def safeYandexCrawlerMethodNames : List String :=
  ["__init__", "run"]

/-- Modelled from the spec: the external base class `YandexCrawler` (the
navigation collaborator from the pip package `yandex-images-crawler`, not in
src/) defines `__init__`, `run` and the private helpers
`__open_first_preview`, `__get_image_link`, `__open_next_preview`, stored
under name mangling as `_YandexCrawler__...` (their mangled names are used
successfully at lines 57, 76-77 of src/safe_crawler.py). -/
def yandexCrawlerMethodNames : List String :=
  ["__init__", "run",
   mangled "YandexCrawler" "__open_first_preview",
   mangled "YandexCrawler" "__get_image_link",
   mangled "YandexCrawler" "__open_next_preview"]

/-- Attribute lookup on a `SafeYandexCrawler` instance: the method resolution
order searches the class body of `SafeYandexCrawler`, then of its base
`YandexCrawler`. -/
def instanceHasAttr (a : String) : Bool :=
  (safeYandexCrawlerMethodNames ++ yandexCrawlerMethodNames).contains a

/-- The attribute name accessed verbatim at line 60 of src/safe_crawler.py:
`self._SafeYandexCrawler__open_first_preview` (a single leading underscore,
so the access site itself is not mangled). -/
def openFirstPreviewAttr : String :=
  "_SafeYandexCrawler__open_first_preview"

/-- The outcome of the `try` block at lines 59-60 in this program: if the
attribute does not resolve, the call raises `AttributeError`, which the
`except Exception` handler catches. -/
def actualInitResult : InitResult :=
  if instanceHasAttr openFirstPreviewAttr then .ok else .error

/- ### Lemmas about the producer loop -/

/-- Running `k` consecutive failed iterations, starting with `j` consecutive errors
already recorded and `j + k` still below the budget, leave the loop running:
the error counter becomes `j + k`, each failure slept 2 seconds and logged
once, and nothing else changed. -/
lemma runLoop_replicate_failure (maxErrors : Nat) :
    ∀ (k j : Nat) (s : PState), s.isActive = true → s.shouldExit = false →
    s.consecutiveErrors = j → j + k < maxErrors →
    runLoop maxErrors (List.replicate k IterResult.failure) s =
      { s with consecutiveErrors := j + k,
               sleepLog := s.sleepLog ++ List.replicate k 2,
               criticalLogs := s.criticalLogs + k } := by
  intro k
  induction k with
  | zero =>
      intro j s hA hE hC _
      cases s
      simp_all [runLoop]
  | succ k ih =>
      intro j s hA hE hC hlt
      rw [List.replicate_succ, runLoop]
      simp only [hA, hE, Bool.not_true, Bool.false_or, Bool.or_self, if_false]
      have hcond : ¬ (maxErrors ≤ s.consecutiveErrors + 1) := by omega
      rw [if_neg hcond]
      rw [ih (j + 1) _ (by simp [hA]) (by simp [hE]) (by simp [hC]) (by omega)]
      cases s
      simp_all [List.replicate_succ]
      try omega

/-- Running `k + 1` consecutive failed iterations that exactly exhaust the budget
(`j + (k + 1) = maxErrors`) terminate the producer: the flag is lowered, the
driver closed, the loop returned; the first `k` failures each slept 2
seconds. -/
lemma runLoop_exhaust (maxErrors : Nat) :
    ∀ (k j : Nat) (s : PState), s.isActive = true → s.shouldExit = false →
    s.consecutiveErrors = j → j + (k + 1) = maxErrors →
    runLoop maxErrors (List.replicate (k + 1) IterResult.failure) s =
      { s with consecutiveErrors := maxErrors,
               isActive := false, shouldExit := true,
               driverOpen := false, terminated := true,
               sleepLog := s.sleepLog ++ List.replicate k 2,
               criticalLogs := s.criticalLogs + k + 2 } := by
  intro k
  induction k with
  | zero =>
      intro j s hA hE hC hsum
      rw [List.replicate_succ, runLoop]
      simp only [hA, hE, Bool.not_true, Bool.false_or, Bool.or_self, if_false]
      have hcond : maxErrors ≤ s.consecutiveErrors + 1 := by omega
      rw [if_pos hcond]
      cases s
      simp_all [List.replicate_succ]
      try omega
  | succ k ih =>
      intro j s hA hE hC hsum
      rw [List.replicate_succ, runLoop]
      simp only [hA, hE, Bool.not_true, Bool.false_or, Bool.or_self, if_false]
      have hcond : ¬ (maxErrors ≤ s.consecutiveErrors + 1) := by omega
      rw [if_neg hcond]
      rw [ih (j + 1) _ (by simp [hA]) (by simp [hE]) (by simp [hC]) (by omega)]
      cases s
      simp_all [List.replicate_succ]
      try omega

/-- Running `k` consecutive failures below the budget followed by one completed
iteration leave the loop running with the error counter reset to 0 and one
more item enqueued. -/
lemma runLoop_failures_then_success (maxErrors : Nat) :
    ∀ (k j : Nat) (s : PState), s.isActive = true → s.shouldExit = false →
    s.consecutiveErrors = j → j + k < maxErrors →
    runLoop maxErrors
        (List.replicate k IterResult.failure ++ [IterResult.success]) s =
      { s with consecutiveErrors := 0, enqueued := s.enqueued + 1,
               sleepLog := s.sleepLog ++ List.replicate k 2,
               criticalLogs := s.criticalLogs + k } := by
  intro k
  induction k with
  | zero =>
      intro j s hA hE hC _
      rw [List.replicate_zero, List.nil_append, runLoop]
      simp only [hA, hE, Bool.not_true, Bool.false_or, Bool.or_self, if_false]
      rw [runLoop]
      cases s
      simp_all
  | succ k ih =>
      intro j s hA hE hC hlt
      rw [List.replicate_succ, List.cons_append, runLoop]
      simp only [hA, hE, Bool.not_true, Bool.false_or, Bool.or_self, if_false]
      have hcond : ¬ (maxErrors ≤ s.consecutiveErrors + 1) := by omega
      rw [if_neg hcond]
      rw [ih (j + 1) _ (by simp [hA]) (by simp [hE]) (by simp [hC]) (by omega)]
      cases s
      simp_all [List.replicate_succ]
      try omega

/-- The state of a freshly constructed producer at the top of `run`:
`consecutive_errors = 0` (line 52), shared flag raised, driver open, nothing
enqueued, no sleeps, no critical logs. -/
def initialPState : PState :=
  { consecutiveErrors := 0, isActive := true, shouldExit := false,
    driverOpen := true, terminated := false, enqueued := 0,
    sleepLog := [], criticalLogs := 0 }

/-- C1: For every Producer configured with `max_errors = N`, starting a loop
pass with the flag raised and a zero consecutive-error counter: after `N`
consecutive iteration failures with no intervening success the producer
lowers the liveness flag, closes its driver and terminates; after any
`k < N` consecutive failures it is still iterating, with counter `k`,
having slept the fixed 2-second backoff after each failure; and a
successful iteration after `k < N` failures resets the counter to 0 with
the producer still active. -/
theorem c1_producer_error_budget (N : Nat) (s : PState)
    (hN : 0 < N) (hA : s.isActive = true) (hE : s.shouldExit = false)
    (hT : s.terminated = false) (hC : s.consecutiveErrors = 0) :
    ((runLoop N (List.replicate N IterResult.failure) s).isActive = false ∧
     (runLoop N (List.replicate N IterResult.failure) s).driverOpen = false ∧
     (runLoop N (List.replicate N IterResult.failure) s).terminated = true) ∧
    (∀ k, k < N →
      (runLoop N (List.replicate k IterResult.failure) s).terminated = false ∧
      (runLoop N (List.replicate k IterResult.failure) s).isActive = true ∧
      (runLoop N (List.replicate k IterResult.failure) s).consecutiveErrors = k ∧
      (runLoop N (List.replicate k IterResult.failure) s).sleepLog =
        s.sleepLog ++ List.replicate k 2) ∧
    (∀ k, k < N →
      (runLoop N (List.replicate k IterResult.failure ++ [IterResult.success]) s).consecutiveErrors = 0 ∧
      (runLoop N (List.replicate k IterResult.failure ++ [IterResult.success]) s).terminated = false ∧
      (runLoop N (List.replicate k IterResult.failure ++ [IterResult.success]) s).isActive = true) := by
  refine ⟨?_, ?_, ?_⟩
  · obtain ⟨m, rfl⟩ : ∃ m, N = m + 1 := ⟨N - 1, by omega⟩
    rw [runLoop_exhaust (m + 1) m 0 s hA hE hC (by omega)]
    simp
  · intro k hk
    rw [runLoop_replicate_failure N k 0 s hA hE hC (by omega)]
    simp [hA, hT]
  · intro k hk
    rw [runLoop_failures_then_success N k 0 s hA hE hC (by omega)]
    simp [hA, hT]

/-- Witness for C1 at `N = 3` with the fresh producer state. -/
theorem c1_producer_error_budget_witness :
    0 < 3 ∧
    (((runLoop 3 (List.replicate 3 IterResult.failure) initialPState).isActive = false ∧
      (runLoop 3 (List.replicate 3 IterResult.failure) initialPState).driverOpen = false ∧
      (runLoop 3 (List.replicate 3 IterResult.failure) initialPState).terminated = true) ∧
     (∀ k, k < 3 →
      (runLoop 3 (List.replicate k IterResult.failure) initialPState).terminated = false ∧
      (runLoop 3 (List.replicate k IterResult.failure) initialPState).isActive = true ∧
      (runLoop 3 (List.replicate k IterResult.failure) initialPState).consecutiveErrors = k ∧
      (runLoop 3 (List.replicate k IterResult.failure) initialPState).sleepLog =
        initialPState.sleepLog ++ List.replicate k 2) ∧
     (∀ k, k < 3 →
      (runLoop 3 (List.replicate k IterResult.failure ++ [IterResult.success]) initialPState).consecutiveErrors = 0 ∧
      (runLoop 3 (List.replicate k IterResult.failure ++ [IterResult.success]) initialPState).terminated = false ∧
      (runLoop 3 (List.replicate k IterResult.failure ++ [IterResult.success]) initialPState).isActive = true)) :=
  ⟨by decide, c1_producer_error_budget 3 initialPState (by decide) rfl rfl rfl rfl⟩

/-- C2: the attribute `_SafeYandexCrawler__open_first_preview` accessed at
line 60 of src/safe_crawler.py does not resolve on a `SafeYandexCrawler`
instance — the class defines no `__open_first_preview`, and the inherited
one is stored under the mangled name `_YandexCrawler__open_first_preview` —
so the call raises `AttributeError` and `run` always takes the fatal-init
branch: it lowers the flag, closes the driver and returns without entering
the iteration loop or enqueuing any work item. -/
theorem c2_open_first_preview_attribute_error :
    instanceHasAttr openFirstPreviewAttr = false ∧
    instanceHasAttr (mangled "YandexCrawler" "__open_first_preview") = true ∧
    actualInitResult = InitResult.error ∧
    ∀ (N : Nat) (rs : List IterResult) (s : PState),
      (runProducer N actualInitResult rs s).isActive = false ∧
      (runProducer N actualInitResult rs s).driverOpen = false ∧
      (runProducer N actualInitResult rs s).terminated = true ∧
      (runProducer N actualInitResult rs s).enqueued = s.enqueued ∧
      (runProducer N actualInitResult rs s).sleepLog = s.sleepLog ∧
      (runProducer N actualInitResult rs s).consecutiveErrors = s.consecutiveErrors := by
  refine ⟨by decide, by decide, by decide, ?_⟩
  intro N rs s
  have h : actualInitResult = InitResult.error := by decide
  rw [h]
  simp [runProducer]

/-- C4: a producer whose initial open-first-preview step raises any
exception logs the failure critically, lowers the liveness flag, closes the
driver, and terminates without entering the iteration loop (no backoff, no
enqueue). -/
theorem c4_fatal_init_error (N : Nat) (init : InitResult)
    (rs : List IterResult) (s : PState) (h : init = InitResult.error) :
    (runProducer N init rs s).isActive = false ∧
    (runProducer N init rs s).driverOpen = false ∧
    (runProducer N init rs s).terminated = true ∧
    (runProducer N init rs s).criticalLogs = s.criticalLogs + 1 ∧
    (runProducer N init rs s).enqueued = s.enqueued ∧
    (runProducer N init rs s).sleepLog = s.sleepLog := by
  subst h
  simp [runProducer]

/-- Witness for C4 at `max_errors = 10` with the fresh producer state. -/
theorem c4_fatal_init_error_witness :
    InitResult.error = InitResult.error ∧
    ((runProducer 10 InitResult.error [IterResult.success] initialPState).isActive = false ∧
     (runProducer 10 InitResult.error [IterResult.success] initialPState).driverOpen = false ∧
     (runProducer 10 InitResult.error [IterResult.success] initialPState).terminated = true ∧
     (runProducer 10 InitResult.error [IterResult.success] initialPState).criticalLogs =
       initialPState.criticalLogs + 1 ∧
     (runProducer 10 InitResult.error [IterResult.success] initialPState).enqueued =
       initialPState.enqueued ∧
     (runProducer 10 InitResult.error [IterResult.success] initialPState).sleepLog =
       initialPState.sleepLog) :=
  ⟨rfl, c4_fatal_init_error 10 InitResult.error [IterResult.success] initialPState rfl⟩

/- ### The shared liveness flag `is_active` (src/safe_crawler.py) -/

/-- The write sites to the shared flag `is_active.value` in
src/safe_crawler.py: the producer fatal-init handler (line 64), producer
budget exhaustion (line 86), the SIGINT handler (line 141), the monitor's
stop branch (line 190), the monitor's timeout branch (line 196), the
`KeyboardInterrupt` handler (line 210), and the `finally` finalizer
(line 213). -/
inductive FlagWrite where
  | producerFatalInit
  | producerBudgetExhausted
  | signalHandler
  | monitorStop
  | monitorTimeout
  | keyboardInterrupt
  | finalizer
deriving DecidableEq, Repr

/-- The value stored by each write site: every site assigns `False`. -/
def flagWriteValue : FlagWrite → Bool :=
  fun _ => false

/-- The initial value of the flag: `Value("i", True)` (line 133). -/
def initialFlagValue : Bool := true

/-- The flag value after a sequence of writes starting from value `b`. -/
def applyFlagWrites (b : Bool) : List FlagWrite → Bool
  | [] => b
  | w :: ws => applyFlagWrites (flagWriteValue w) ws

/-- Any write sequence starting from `false` leaves the flag `false`. -/
lemma applyFlagWrites_false : ∀ ws : List FlagWrite, applyFlagWrites false ws = false := by
  intro ws
  induction ws with
  | nil => rfl
  | cons w ws ih => simpa [applyFlagWrites, flagWriteValue] using ih

/-- Write sequences compose by concatenation. -/
lemma applyFlagWrites_append (b : Bool) (ws ws' : List FlagWrite) :
    applyFlagWrites b (ws ++ ws') = applyFlagWrites (applyFlagWrites b ws) ws' := by
  induction ws generalizing b with
  | nil => rfl
  | cons w ws ih => simp [applyFlagWrites, ih]

/-- C3: the liveness flag is monotonic within a run: it starts `true`, every
write site in the program stores `false`, and once any write sequence has
lowered it, no continuation of that sequence ever shows it raised again. -/
theorem c3_liveness_flag_monotone :
    initialFlagValue = true ∧
    (∀ w : FlagWrite, flagWriteValue w = false) ∧
    (∀ ws ws' : List FlagWrite,
      applyFlagWrites initialFlagValue ws = false →
      applyFlagWrites initialFlagValue (ws ++ ws') = false) := by
  refine ⟨rfl, fun w => rfl, ?_⟩
  intro ws ws' h
  rw [applyFlagWrites_append, h, applyFlagWrites_false]

/-- Witness for C3: the SIGINT handler lowers the flag, and a later timeout
write does not raise it. -/
theorem c3_liveness_flag_monotone_witness :
    applyFlagWrites initialFlagValue [FlagWrite.signalHandler] = false ∧
    applyFlagWrites initialFlagValue
      ([FlagWrite.signalHandler] ++ [FlagWrite.monitorTimeout]) = false :=
  ⟨by decide,
   c3_liveness_flag_monotone.2.2 [FlagWrite.signalHandler] [FlagWrite.monitorTimeout] (by decide)⟩

/- ### The monitor loop of `safe_download` (src/safe_crawler.py lines 183-207) -/

/-- One pass of the monitor loop body, given the monitor's view of
`should_exit`, the current flag value, and the elapsed wall-clock seconds at
the check.  Returns the flag value after the pass and whether the loop
breaks.  Lines 188-191: if `should_exit` or the flag is already lowered,
store `false` and break.  Lines 194-197: if `timeout > 0` and the elapsed
time exceeds it, store `false` and break.  Otherwise report progress and
sleep 5 seconds (lines 200-207). -/
def monitorCheck (timeout : Nat) (shouldExit isActive : Bool)
    (elapsed : Nat) : Bool × Bool :=
  if shouldExit || !isActive then (false, true)
  else if 0 < timeout ∧ timeout < elapsed then (false, true)
  else (isActive, false)

/-- Elapsed seconds at the start of the k-th monitor check, idealizing the
loop body as instantaneous apart from its `time.sleep(5)` (line 207). -/
def monitorElapsed (k : Nat) : Nat := 5 * k

/-- C8: with `timeout = T > 0` and no other stop condition (no
`should_exit`, flag still raised), every check at elapsed time at most `T`
leaves the flag raised and continues; the check of iteration `T / 5 + 1` is
the first whose elapsed time exceeds `T`, and it lowers the flag and breaks,
at an elapsed time at most `T + 5` — within one 5-second polling interval
after `T`.  With `timeout = 0` the timeout condition never triggers. -/
theorem c8_monitor_timeout (T : Nat) (hT : 0 < T) :
    (∀ k, k ≤ T / 5 →
      monitorCheck T false true (monitorElapsed k) = (true, false)) ∧
    monitorCheck T false true (monitorElapsed (T / 5 + 1)) = (false, true) ∧
    T < monitorElapsed (T / 5 + 1) ∧
    monitorElapsed (T / 5 + 1) ≤ T + 5 ∧
    (∀ e, monitorCheck 0 false true e = (true, false)) := by
  refine ⟨?_, ?_, by simp [monitorElapsed]; omega, by simp [monitorElapsed]; omega, ?_⟩
  · intro k hk
    have h1 : ¬ (T < 5 * k) := by omega
    simp [monitorCheck, monitorElapsed, h1]
  · have h2 : T < 5 * (T / 5 + 1) := by omega
    simp [monitorCheck, monitorElapsed, h2, hT]
  · intro e
    simp [monitorCheck]

/-- Witness for C8 at `T = 7`: the checks at elapsed 0 and 5 seconds
continue, the check at 10 seconds lowers the flag, and `7 < 10 ≤ 12`. -/
theorem c8_monitor_timeout_witness :
    0 < 7 ∧
    ((∀ k, k ≤ 7 / 5 →
      monitorCheck 7 false true (monitorElapsed k) = (true, false)) ∧
     monitorCheck 7 false true (monitorElapsed (7 / 5 + 1)) = (false, true) ∧
     7 < monitorElapsed (7 / 5 + 1) ∧
     monitorElapsed (7 / 5 + 1) ≤ 7 + 5 ∧
     (∀ e, monitorCheck 0 false true e = (true, false))) :=
  ⟨by decide, c8_monitor_timeout 7 (by decide)⟩

/- ### The bounded work queue of `safe_download` (src/safe_crawler.py lines 131-132) -/

/-- A discovered-item descriptor as enqueued by a producer: the locator of a
candidate image. -/
structure WorkItem where
  link : String
deriving DecidableEq, Repr

/-- A bounded FIFO queue: `multiprocessing.Queue(maxsize)`. -/
structure BQueue (α : Type) where
  capacity : Nat
  items : List α
deriving Repr

/-- One queue operation performed by some process. -/
inductive QOp (α : Type) where
  | enq : α → QOp α
  | deq : QOp α
deriving Repr

/-- Apply one operation.  `enq` appends only when the queue is below
capacity; at capacity the caller blocks and the queue is unchanged.
`deq` removes the oldest item when one exists, otherwise the caller blocks
and the queue is unchanged. -/
def applyQOp {α : Type} (q : BQueue α) : QOp α → BQueue α
  | .enq a =>
      if q.items.length < q.capacity then { q with items := q.items ++ [a] }
      else q
  | .deq =>
      match q.items with
      | [] => q
      | _ :: rest => { q with items := rest }

/-- Apply a sequence of queue operations. -/
def applyQOps {α : Type} (q : BQueue α) : List (QOp α) → BQueue α
  | [] => q
  | op :: ops => applyQOps (applyQOp q op) ops

/-- The load queue constructed by `safe_download`:
`proc_num = len(links)` (line 131) and `Queue(10 * proc_num)` (line 132),
initially empty. -/
def loadQueue (links : List String) : BQueue WorkItem :=
  { capacity := 10 * links.length, items := [] }

/-- A queue operation preserves the capacity and the occupancy bound. -/
lemma applyQOp_le {α : Type} (q : BQueue α) (op : QOp α)
    (h : q.items.length ≤ q.capacity) :
    (applyQOp q op).items.length ≤ (applyQOp q op).capacity ∧
    (applyQOp q op).capacity = q.capacity := by
  cases op with
  | enq a =>
      by_cases hlen : q.items.length < q.capacity
      · simp [applyQOp, hlen]
        omega
      · simp [applyQOp, hlen]
        exact h
  | deq =>
      cases hq : q.items with
      | nil => simp [applyQOp, hq]
      | cons a rest =>
          simp [applyQOp, hq]
          have := congrArg List.length hq
          simp at this
          omega

/-- A sequence of queue operations preserves the occupancy bound. -/
lemma applyQOps_le {α : Type} (ops : List (QOp α)) (q : BQueue α)
    (h : q.items.length ≤ q.capacity) :
    (applyQOps q ops).items.length ≤ (applyQOps q ops).capacity ∧
    (applyQOps q ops).capacity = q.capacity := by
  induction ops generalizing q with
  | nil => exact ⟨h, rfl⟩
  | cons op ops ih =>
      obtain ⟨h1, h2⟩ := applyQOp_le q op h
      obtain ⟨h3, h4⟩ := ih (applyQOp q op) h1
      simp only [applyQOps]
      exact ⟨h3, by rw [h4, h2]⟩

/-- C9: the load queue is constructed with capacity exactly 10 times the
number of links (one producer per link), and after any sequence of enqueue
and dequeue operations its occupancy never exceeds that capacity. -/
theorem c9_queue_capacity (links : List String) (ops : List (QOp WorkItem)) :
    (loadQueue links).capacity = 10 * links.length ∧
    (applyQOps (loadQueue links) ops).items.length ≤ (loadQueue links).capacity := by
  have h := applyQOps_le ops (loadQueue links) (by simp [loadQueue])
  exact ⟨rfl, le_of_le_of_eq h.1 h.2⟩

/- ### Consumer logic of `YandexCrawlerGUI.download_images`
   (src/yandex_crawler_gui.py lines 466-594) -/

/-- The data of one candidate reaching the download block (lines 541-574):
the declared size scraped from the viewer (lines 484-505), whether the HTTP
fetch and decode raised no exception (lines 557-560), the HTTP status code
(line 559), the decoded image size `img.size` (line 561), and the SHA-256
hex digest of the decoded pixel array (line 564). -/
structure GuiItem where
  declaredW : Nat
  declaredH : Nat
  fetchOk : Bool
  status : Nat
  decodedW : Nat
  decodedH : Nat
  hashName : String
deriving DecidableEq, Repr

/-- Consumer-side state: the file names present in the output directory,
the content hashes persisted by this run (one entry per `img.save` call,
line 569), and the `downloaded` counter (lines 469 and 570). -/
structure ConsState where
  disk : List String
  written : List String
  downloaded : Nat
deriving DecidableEq, Repr

/-- The characters of a file name before its first `.`:
Python `file.split(".")[0]`. -/
def stemChars : List Char → List Char
  | [] => []
  | c :: cs => if c = '.' then [] else c :: stemChars cs

/-- The stem of a file name, `file.split(".")[0]` (line 355). -/
def fileStem (f : String) : String :=
  String.mk (stemChars f.data)

/-- The `initial_files` set built before the loop (lines 353-356): the stems
of the files present in the output directory at start. -/
def initialFiles (disk0 : List String) : List String :=
  disk0.map fileStem

/-- The download block for one candidate (lines 541-574).  The declared size
must meet the configured minimum (line 541); the fetch and decode must not
raise (lines 557-560); the HTTP status must be 2xx (line 559); the decoded
size must meet the configured minimum (line 563); the hash must not be in
`initial_files` and the hash-derived path `<hash>.png` must not exist
(line 567).  Only then is the image saved and the counter incremented
(lines 568-570); in every other case nothing is written. -/
def processItem (minW minH : Nat) (initial : List String)
    (st : ConsState) (it : GuiItem) : ConsState :=
  if minW ≤ it.declaredW ∧ minH ≤ it.declaredH then
    if it.fetchOk then
      if 200 ≤ it.status ∧ it.status < 300 then
        if minW ≤ it.decodedW ∧ minH ≤ it.decodedH then
          if it.hashName ∉ initial ∧ (it.hashName ++ ".png") ∉ st.disk then
            { disk := st.disk ++ [it.hashName ++ ".png"],
              written := st.written ++ [it.hashName],
              downloaded := st.downloaded + 1 }
          else st
        else st
      else st
    else st
  else st

/-- A run of the consumer logic over a list of candidates, starting from the
directory contents `disk0`, with nothing yet written this run. -/
def runConsumer (minW minH : Nat) (disk0 : List String)
    (items : List GuiItem) : ConsState :=
  items.foldl (processItem minW minH (initialFiles disk0))
    { disk := disk0, written := [], downloaded := 0 }

/-- Processing one candidate either leaves the state unchanged, or appends
exactly one new file whose hash passed both dedup checks. -/
lemma processItem_cases (minW minH : Nat) (initial : List String)
    (st : ConsState) (it : GuiItem) :
    processItem minW minH initial st it = st ∨
    (it.hashName ∉ initial ∧ (it.hashName ++ ".png") ∉ st.disk ∧
     processItem minW minH initial st it =
       { disk := st.disk ++ [it.hashName ++ ".png"],
         written := st.written ++ [it.hashName],
         downloaded := st.downloaded + 1 }) := by
  unfold processItem
  split_ifs with h1 h2 h3 h4 h5
  · exact Or.inr ⟨h5.1, h5.2, rfl⟩
  all_goals exact Or.inl rfl

/-- One candidate increments the `downloaded` counter by at most one, and
never decrements it. -/
lemma processItem_downloaded (minW minH : Nat) (initial : List String)
    (st : ConsState) (it : GuiItem) :
    st.downloaded ≤ (processItem minW minH initial st it).downloaded ∧
    (processItem minW minH initial st it).downloaded ≤ st.downloaded + 1 := by
  rcases processItem_cases minW minH initial st it with h | ⟨_, _, h⟩ <;>
    simp [h]

/-- Run invariant: every hash written this run has its `<hash>.png` path on
disk, and the written hashes are pairwise distinct. -/
lemma runConsumer_invariant (minW minH : Nat) (initial : List String) :
    ∀ (items : List GuiItem) (st : ConsState),
    (∀ h ∈ st.written, (h ++ ".png") ∈ st.disk) → st.written.Nodup →
    (∀ h ∈ (List.foldl (processItem minW minH initial) st items).written,
        (h ++ ".png") ∈ (List.foldl (processItem minW minH initial) st items).disk) ∧
    (List.foldl (processItem minW minH initial) st items).written.Nodup := by
  intro items
  induction items with
  | nil => intro st h1 h2; exact ⟨h1, h2⟩
  | cons it items ih =>
      intro st h1 h2
      simp only [List.foldl_cons]
      rcases processItem_cases minW minH initial st it with h | ⟨hni, hnd, h⟩
      · rw [h]; exact ih st h1 h2
      · rw [h]
        apply ih
        · intro x hx
          simp only [List.mem_append, List.mem_singleton] at hx
          rcases hx with hx | hx
          · exact List.mem_append_left _ (h1 x hx)
          · subst hx
            exact List.mem_append_right _ (List.mem_singleton_self _)
        · have hxw : it.hashName ∉ st.written := by
            intro hmem
            exact hnd (h1 _ hmem)
          simpa [List.nodup_append] using ⟨h2, hxw⟩

/-- C5: a decoded image whose content hash is in the initial skip set, or
whose hash-derived path already exists on disk, is never written; and within
one consumer run the content hashes persisted are pairwise distinct, i.e.
each hash is written at most once per run. -/
theorem c5_content_hash_dedup (minW minH : Nat) (disk0 : List String)
    (items : List GuiItem) :
    (∀ (st : ConsState) (it : GuiItem),
      it.hashName ∈ initialFiles disk0 ∨ (it.hashName ++ ".png") ∈ st.disk →
      processItem minW minH (initialFiles disk0) st it = st) ∧
    (runConsumer minW minH disk0 items).written.Nodup := by
  constructor
  · intro st it hskip
    rcases processItem_cases minW minH (initialFiles disk0) st it with h | ⟨hni, hnd, _⟩
    · exact h
    · rcases hskip with hskip | hskip
      · exact absurd hskip hni
      · exact absurd hskip hnd
  · exact (runConsumer_invariant minW minH (initialFiles disk0) items
      { disk := disk0, written := [], downloaded := 0 } (by simp) (by simp)).2

/-- Witness for C5: the output directory pre-contains `abc123.png`; a
freshly decoded image whose hash is `abc123` is rejected even though nothing
was dequeued this run, and a one-item run persists pairwise distinct
hashes. -/
theorem c5_content_hash_dedup_witness :
    processItem 0 0 (initialFiles ["abc123.png"])
      { disk := ["abc123.png"], written := [], downloaded := 0 }
      { declaredW := 800, declaredH := 600, fetchOk := true, status := 200,
        decodedW := 800, decodedH := 600, hashName := "abc123" } =
      { disk := ["abc123.png"], written := [], downloaded := 0 } ∧
    (runConsumer 0 0 ["abc123.png"]
      [{ declaredW := 800, declaredH := 600, fetchOk := true, status := 200,
         decodedW := 800, decodedH := 600, hashName := "abc123" }]).written.Nodup :=
  ⟨(c5_content_hash_dedup 0 0 ["abc123.png"] []).1
      { disk := ["abc123.png"], written := [], downloaded := 0 }
      { declaredW := 800, declaredH := 600, fetchOk := true, status := 200,
        decodedW := 800, decodedH := 600, hashName := "abc123" }
      (Or.inl (by decide)),
   (c5_content_hash_dedup 0 0 ["abc123.png"]
      [{ declaredW := 800, declaredH := 600, fetchOk := true, status := 200,
         decodedW := 800, decodedH := 600, hashName := "abc123" }]).2⟩

/-- C6: a candidate whose decoded width or height is below the configured
minimum is rejected: no file is written and the download counter is
unchanged (the whole consumer state is unchanged), whatever size discovery
declared for it. -/
theorem c6_decoded_size_filter (minW minH : Nat) (initial : List String)
    (st : ConsState) (it : GuiItem)
    (h : it.decodedW < minW ∨ it.decodedH < minH) :
    processItem minW minH initial st it = st := by
  rcases h with h | h <;>
    · unfold processItem
      split_ifs with h1 h2 h3 h4 h5 <;> first | rfl | omega

/-- Witness for C6: a candidate with decoded size 400×300 against configured
minimum 800×600 is rejected and no file is written. -/
theorem c6_decoded_size_filter_witness :
    ((400:Nat) < 800 ∨ (300:Nat) < 600) ∧
    processItem 800 600 [] { disk := [], written := [], downloaded := 0 }
      { declaredW := 1000, declaredH := 800, fetchOk := true, status := 200,
        decodedW := 400, decodedH := 300, hashName := "deadbeef" } =
      { disk := [], written := [], downloaded := 0 } :=
  ⟨Or.inl (by decide),
   c6_decoded_size_filter 800 600 [] { disk := [], written := [], downloaded := 0 }
     { declaredW := 1000, declaredH := 800, fetchOk := true, status := 200,
       decodedW := 400, decodedH := 300, hashName := "deadbeef" }
     (Or.inl (by decide))⟩

/-- Why the download loop of `YandexCrawlerGUI.download_images` stopped. -/
inductive GuiStop where
  | timedOut
  | targetReached
  | outOfTrace
deriving DecidableEq, Repr

/-- The download loop (lines 471-594) with no stop request and no
extraction errors: each trace element gives the elapsed seconds at the
loop-head checks and the candidate processed by the body.  The loop head
checks the timeout (lines 472-475), then whether the target count has been
reached (lines 477-480); otherwise the body runs (lines 482-584).  An
exhausted trace leaves the loop running. -/
def downloadLoop (timeout count minW minH : Nat) (initial : List String)
    (st : ConsState) : List (Nat × GuiItem) → ConsState × GuiStop
  | [] => (st, GuiStop.outOfTrace)
  | (e, it) :: rest =>
      if 0 < timeout ∧ timeout < e then (st, GuiStop.timedOut)
      else if 0 < count ∧ count ≤ st.downloaded then (st, GuiStop.targetReached)
      else downloadLoop timeout count minW minH initial
             (processItem minW minH initial st it) rest

/-- C7: with a positive target count `K`, the download loop stops on the
count check exactly when the number of images persisted this run has reached
`K`: starting at or below `K` it never persists beyond `K`, and a
count-based stop implies at least `K` were persisted (never before); with
target count 0 the loop never stops on the basis of the count. -/
theorem c7_target_count (timeout count minW minH : Nat)
    (initial : List String) (st : ConsState) (trace : List (Nat × GuiItem)) :
    (count = 0 →
      (downloadLoop timeout count minW minH initial st trace).2 ≠
        GuiStop.targetReached) ∧
    (0 < count → st.downloaded ≤ count →
      (downloadLoop timeout count minW minH initial st trace).1.downloaded ≤ count) ∧
    ((downloadLoop timeout count minW minH initial st trace).2 =
        GuiStop.targetReached →
      count ≤ (downloadLoop timeout count minW minH initial st trace).1.downloaded) := by
  induction trace generalizing st with
  | nil =>
      refine ⟨fun _ => by simp [downloadLoop], fun _ h => by simpa [downloadLoop] using h,
        fun h => by simp [downloadLoop] at h⟩
  | cons p rest ih =>
      obtain ⟨e, it⟩ := p
      by_cases ht : 0 < timeout ∧ timeout < e
      · have hd : downloadLoop timeout count minW minH initial st ((e, it) :: rest) =
            (st, GuiStop.timedOut) := by
          simp [downloadLoop, ht]
        rw [hd]
        exact ⟨fun _ => by simp, fun _ h => h, fun h => by simp at h⟩
      · by_cases hc : 0 < count ∧ count ≤ st.downloaded
        · have hd : downloadLoop timeout count minW minH initial st ((e, it) :: rest) =
              (st, GuiStop.targetReached) := by
            simp [downloadLoop, ht, hc]
          rw [hd]
          exact ⟨fun h0 => absurd hc.1 (by omega), fun _ h => h, fun _ => hc.2⟩
        · have hd : downloadLoop timeout count minW minH initial st ((e, it) :: rest) =
              downloadLoop timeout count minW minH initial
                (processItem minW minH initial st it) rest := by
            simp [downloadLoop, ht, hc]
          rw [hd]
          refine ⟨fun h0 => (ih _).1 h0, fun hpos h => ?_, (ih _).2.2⟩
          have hlt : st.downloaded < count := by
            rcases Nat.lt_or_ge st.downloaded count with hlt | hge
            · exact hlt
            · exact absurd ⟨hpos, hge⟩ hc
          have hstep := processItem_downloaded minW minH initial st it
          exact (ih _).2.1 hpos (by omega)

/-- Witness for C7: target count 1 with a two-candidate trace; the run
persists at most one image. -/
theorem c7_target_count_witness :
    (0:Nat) < 1 ∧
    (downloadLoop 0 1 0 0 []
      { disk := [], written := [], downloaded := 0 }
      [(0, { declaredW := 800, declaredH := 600, fetchOk := true, status := 200,
             decodedW := 800, decodedH := 600, hashName := "aa" }),
       (1, { declaredW := 800, declaredH := 600, fetchOk := true, status := 200,
             decodedW := 800, decodedH := 600, hashName := "bb" })]).1.downloaded ≤ 1 :=
  ⟨by decide,
   (c7_target_count 0 1 0 0 [] { disk := [], written := [], downloaded := 0 }
      [(0, { declaredW := 800, declaredH := 600, fetchOk := true, status := 200,
             decodedW := 800, decodedH := 600, hashName := "aa" }),
       (1, { declaredW := 800, declaredH := 600, fetchOk := true, status := 200,
             decodedW := 800, decodedH := 600, hashName := "bb" })]).2.1
      (by decide) (by decide)⟩

/- ### `--size` handling in `safe_crawler.main`
   (src/safe_crawler.py lines 311-317) -/

/-- Python `s.split(sep)` for a one-character separator, over the character
list of `s`: splits at every occurrence of `sep`, keeping empty parts
(`"".split("x") == [""]`). -/
def splitOnChar (sep : Char) : List Char → List (List Char)
  | [] => [[]]
  | c :: cs =>
      match splitOnChar sep cs with
      | [] => [[]]
      | g :: gs => if c = sep then [] :: g :: gs else (c :: g) :: gs

/-- Code points opening the blocks of Unicode category `Nd` (decimal
digits), per Unicode 15.0, the database of current CPython; every block is
ten consecutive code points with digit values 0-9.  Python `int` accepts a
digit from any of these blocks. -/
def ndBlockStarts : List Nat :=
  [0x0030, 0x0660, 0x06F0, 0x07C0, 0x0966, 0x09E6, 0x0A66, 0x0AE6, 0x0B66,
   0x0BE6, 0x0C66, 0x0CE6, 0x0D66, 0x0DE6, 0x0E50, 0x0ED0, 0x0F20, 0x1040,
   0x1090, 0x17E0, 0x1810, 0x1946, 0x19D0, 0x1A80, 0x1A90, 0x1B50, 0x1BB0,
   0x1C40, 0x1C50, 0xA620, 0xA8D0, 0xA900, 0xA9D0, 0xA9F0, 0xAA50, 0xABF0,
   0xFF10, 0x104A0, 0x10D30, 0x11066, 0x110F0, 0x11136, 0x111D0, 0x112F0,
   0x11450, 0x114D0, 0x11650, 0x116C0, 0x11730, 0x118E0, 0x11950, 0x11C50,
   0x11D50, 0x11DA0, 0x11F50, 0x16A60, 0x16AC0, 0x16B50, 0x1D7CE, 0x1D7D8,
   0x1D7E2, 0x1D7EC, 0x1D7F6, 0x1E140, 0x1E2F0, 0x1E4F0, 0x1E950, 0x1FBF0]

/-- The decimal value of a character under Python `int`: `some v` when the
character is a Unicode `Nd` digit of value `v`, otherwise `none`. -/
def pyDigitVal (c : Char) : Option Nat :=
  (ndBlockStarts.find? fun s =>
      decide (s ≤ c.toNat) && decide (c.toNat < s + 10)).map
    (fun s => c.toNat - s)

/-- Python `str.isspace`, the set stripped by `str.strip()`: the ASCII
whitespace and separator controls, NEL, NBSP, and the Unicode space
characters. -/
def pyIsSpace (c : Char) : Bool :=
  let n := c.toNat
  (decide (0x09 ≤ n) && decide (n ≤ 0x0D)) ||
  (decide (0x1C ≤ n) && decide (n ≤ 0x1F)) ||
  decide (n = 0x20) || decide (n = 0x85) || decide (n = 0xA0) ||
  decide (n = 0x1680) ||
  (decide (0x2000 ≤ n) && decide (n ≤ 0x200A)) ||
  decide (n = 0x2028) || decide (n = 0x2029) || decide (n = 0x202F) ||
  decide (n = 0x205F) || decide (n = 0x3000)

/-- Python `str.strip()`: remove leading and trailing whitespace. -/
def pyStrip (l : List Char) : List Char :=
  ((l.dropWhile pyIsSpace).reverse.dropWhile pyIsSpace).reverse

/-- The continuation of a PEP 515 `digitpart` after its first digit, with
`acc` the value accumulated so far and `prevUnderscore` recording whether
the previous character was an underscore: the grammar `digit (["_"] digit)*`
allows an underscore only between two digits — never doubled, leading or
trailing. -/
def pyDigitRun (prevUnderscore : Bool) (acc : Nat) : List Char → Option Nat
  | [] => if prevUnderscore then none else some acc
  | c :: rest =>
      if c = '_' then
        if prevUnderscore then none else pyDigitRun true acc rest
      else
        match pyDigitVal c with
        | none => none
        | some d => pyDigitRun false (10 * acc + d) rest

/-- A full PEP 515 `digitpart`: at least one digit, underscores only between
digits; returns the base-10 value. -/
def pyDigitPart : List Char → Option Nat
  | [] => none
  | c :: rest =>
      match pyDigitVal c with
      | none => none
      | some d => pyDigitRun false d rest

/-- Python `int(str)` on a decimal string: strip surrounding whitespace,
accept one optional sign, then a PEP 515 digit part over the Unicode `Nd`
digits; any other string raises `ValueError` (`none`). -/
def pyInt (l : List Char) : Option Int :=
  match pyStrip l with
  | [] => none
  | c :: rest =>
      if c = '-' then (pyDigitPart rest).map (fun n => -(n : Int))
      else if c = '+' then (pyDigitPart rest).map (fun n => ((n : Int)))
      else (pyDigitPart (c :: rest)).map (fun n => ((n : Int)))

/-- Whether `width, height = map(int, s.split("x"))` succeeds: the split
must give exactly two parts (otherwise unpacking raises `ValueError`) and
both must be integer literals (otherwise `int` raises `ValueError`). -/
def parsesAsSize (s : List Char) : Bool :=
  match (splitOnChar 'x' s).map pyInt with
  | [some _, some _] => true
  | _ => false

/-- Lines 311-317 of src/safe_crawler.py:
`width, height = map(int, args.size.split("x"))` inside `try`; on
`ValueError` the handler logs an error and proceeds with `(0, 0)`.  Returns
the resulting `image_size` together with whether the error branch ran. -/
def parseSizeResult (s : List Char) : (Int × Int) × Bool :=
  match (splitOnChar 'x' s).map pyInt with
  | [some w, some h] => ((w, h), false)
  | _ => ((0, 0), true)

/-- The split of a separator-free string is one part. -/
lemma splitOnChar_no_sep (sep : Char) :
    ∀ l : List Char, sep ∉ l → splitOnChar sep l = [l] := by
  intro l
  induction l with
  | nil => intro _; rfl
  | cons c cs ih =>
      intro h
      have hc : ¬ (c = sep) := fun hcs => h (hcs ▸ List.mem_cons_self c cs)
      have hcs : sep ∉ cs := fun hm => h (List.mem_cons_of_mem c hm)
      simp only [splitOnChar, ih hcs]
      simp [hc]

/-- Splitting at the first separator occurrence after a separator-free
part. -/
lemma splitOnChar_append (sep : Char) :
    ∀ a b : List Char, sep ∉ a → sep ∉ b →
    splitOnChar sep (a ++ sep :: b) = [a, b] := by
  intro a
  induction a with
  | nil =>
      intro b _ hb
      simp only [List.nil_append, splitOnChar, splitOnChar_no_sep sep b hb]
      simp
  | cons c cs ih =>
      intro b ha hb
      have hc : ¬ (c = sep) := fun hcs => ha (hcs ▸ List.mem_cons_self c cs)
      have hcs : sep ∉ cs := fun hm => ha (List.mem_cons_of_mem c hm)
      simp only [List.cons_append, splitOnChar, List.append_eq]
      rw [ih b hcs hb]
      simp [hc]

/-- A character that fails the predicate is never removed by `dropWhile`. -/
lemma mem_dropWhile_of_neg (p : Char → Bool) (c : Char) (hc : p c = false) :
    ∀ l : List Char, c ∈ l → c ∈ l.dropWhile p := by
  intro l
  induction l with
  | nil => intro h; exact absurd h (List.not_mem_nil c)
  | cons a l ih =>
      intro h
      by_cases ha : p a = true
      · rw [List.dropWhile_cons, if_pos ha]
        rcases List.mem_cons.mp h with rfl | h2
        · simp [hc] at ha
        · exact ih h2
      · rw [List.dropWhile_cons, if_neg ha]
        exact h

/-- Stripping never removes a non-whitespace character. -/
lemma pyStrip_mem (c : Char) (hc : pyIsSpace c = false)
    (l : List Char) (h : c ∈ l) : c ∈ pyStrip l := by
  unfold pyStrip
  exact List.mem_reverse.mpr (mem_dropWhile_of_neg pyIsSpace c hc _
    (List.mem_reverse.mpr (mem_dropWhile_of_neg pyIsSpace c hc l h)))

/-- Every character consumed by a successful digit run is an underscore or
a digit. -/
lemma pyDigitRun_chars :
    ∀ (l : List Char) (u : Bool) (acc n : Nat), pyDigitRun u acc l = some n →
    ∀ c ∈ l, c = '_' ∨ (pyDigitVal c).isSome = true := by
  intro l
  induction l with
  | nil => intro u acc n _ c hc; exact absurd hc (List.not_mem_nil c)
  | cons a l ih =>
      intro u acc n h c hc
      simp only [pyDigitRun] at h
      by_cases ha : a = '_'
      · rw [if_pos ha] at h
        rcases List.mem_cons.mp hc with rfl | hc2
        · exact Or.inl ha
        · cases u with
          | true => simp at h
          | false =>
              have h2 : pyDigitRun true acc l = some n := h
              exact ih true acc n h2 c hc2
      · rw [if_neg ha] at h
        cases hd : pyDigitVal a with
        | none =>
            rw [hd] at h
            have h2 : (none : Option Nat) = some n := h
            simp at h2
        | some d =>
            rw [hd] at h
            have h2 : pyDigitRun false (10 * acc + d) l = some n := h
            rcases List.mem_cons.mp hc with rfl | hc2
            · exact Or.inr (by simp [hd])
            · exact ih false (10 * acc + d) n h2 c hc2

/-- Every character of a successful digit part is an underscore or a
digit. -/
lemma pyDigitPart_chars (l : List Char) (n : Nat) (h : pyDigitPart l = some n) :
    ∀ c ∈ l, c = '_' ∨ (pyDigitVal c).isSome = true := by
  match l with
  | [] => intro c hc; exact absurd hc (List.not_mem_nil c)
  | a :: rest =>
      intro c hc
      simp only [pyDigitPart] at h
      cases hd : pyDigitVal a with
      | none =>
          rw [hd] at h
          have h2 : (none : Option Nat) = some n := h
          simp at h2
      | some d =>
          rw [hd] at h
          have h2 : pyDigitRun false d rest = some n := h
          rcases List.mem_cons.mp hc with rfl | hc2
          · exact Or.inr (by simp [hd])
          · exact pyDigitRun_chars rest false d n h2 c hc2

/-- An integer literal accepted by `pyInt` contains no `x`: its characters
are surrounding whitespace, one optional sign, digits and underscores, and
`x` is none of these. -/
lemma pyInt_no_x (l : List Char) (v : Int) (h : pyInt l = some v) : 'x' ∉ l := by
  intro hx
  have hxs0 : 'x' ∈ pyStrip l := pyStrip_mem 'x' (by decide) l hx
  rcases hcore : pyStrip l with _ | ⟨c, rest⟩
  · rw [hcore] at hxs0; exact absurd hxs0 (List.not_mem_nil _)
  · rw [hcore] at hxs0
    have he : pyInt l =
        (if c = '-' then (pyDigitPart rest).map (fun n => -(n : Int))
         else if c = '+' then (pyDigitPart rest).map (fun n => ((n : Int)))
         else (pyDigitPart (c :: rest)).map (fun n => ((n : Int)))) := by
      simp only [pyInt, hcore]
    rw [he] at h
    by_cases h1 : c = '-'
    · rw [if_pos h1] at h
      cases hn : pyDigitPart rest with
      | none => rw [hn] at h; simp at h
      | some n =>
          rcases List.mem_cons.mp hxs0 with hxc | hxr
          · exact absurd (hxc.trans h1) (by decide)
          · rcases pyDigitPart_chars rest n hn 'x' hxr with h3 | h3
            · exact absurd h3 (by decide)
            · exact absurd h3 (by decide)
    · by_cases h2 : c = '+'
      · rw [if_neg h1, if_pos h2] at h
        cases hn : pyDigitPart rest with
        | none => rw [hn] at h; simp at h
        | some n =>
            rcases List.mem_cons.mp hxs0 with hxc | hxr
            · exact absurd (hxc.trans h2) (by decide)
            · rcases pyDigitPart_chars rest n hn 'x' hxr with h3 | h3
              · exact absurd h3 (by decide)
              · exact absurd h3 (by decide)
      · rw [if_neg h1, if_neg h2] at h
        cases hn : pyDigitPart (c :: rest) with
        | none => rw [hn] at h; simp at h
        | some n =>
            rcases pyDigitPart_chars (c :: rest) n hn 'x' hxs0 with h3 | h3
            · exact absurd h3 (by decide)
            · exact absurd h3 (by decide)

/-- C10: a `--size` string that does not parse as two `x`-separated integers
makes `main` take the `ValueError` branch — an error is logged and the run
proceeds with minimum size `(0, 0)` — while a string of the form
`<int>x<int>` yields exactly those two integers with no error. -/
theorem c10_size_argument (s a b : List Char) (va vb : Int) :
    (parsesAsSize s = false → parseSizeResult s = ((0, 0), true)) ∧
    (pyInt a = some va → pyInt b = some vb →
      parseSizeResult (a ++ 'x' :: b) = ((va, vb), false) ∧
      parsesAsSize (a ++ 'x' :: b) = true) := by
  constructor
  · intro hp
    unfold parseSizeResult
    split
    · rename_i w h heq
      unfold parsesAsSize at hp
      rw [heq] at hp
      simp at hp
    · rfl
  · intro ha hb
    have hxa := pyInt_no_x a va ha
    have hxb := pyInt_no_x b vb hb
    have hsplit := splitOnChar_append 'x' a b hxa hxb
    constructor
    · unfold parseSizeResult
      rw [hsplit]
      simp [ha, hb]
    · unfold parsesAsSize
      rw [hsplit]
      simp [ha, hb]

/-- Witness for C10: `foo` does not parse and yields `(0, 0)` with the error
branch taken; `800x600` yields exactly `(800, 600)` with no error; and the
whitespace and underscore forms ` 1x2` and `1_000x800` parse with no error
to `(1, 2)` and `(1000, 800)`, as Python `int` does. -/
theorem c10_size_argument_witness :
    parsesAsSize (String.toList "foo") = false ∧
    parseSizeResult (String.toList "foo") = ((0, 0), true) ∧
    parseSizeResult (String.toList "800" ++ 'x' :: String.toList "600") =
      ((800, 600), false) ∧
    parseSizeResult (String.toList " 1" ++ 'x' :: String.toList "2") =
      ((1, 2), false) ∧
    parseSizeResult (String.toList "1_000" ++ 'x' :: String.toList "800") =
      ((1000, 800), false) :=
  ⟨by decide,
   (c10_size_argument (String.toList "foo") (String.toList "800")
      (String.toList "600") 800 600).1 (by decide),
   ((c10_size_argument (String.toList "foo") (String.toList "800")
      (String.toList "600") 800 600).2 (by decide) (by decide)).1,
   ((c10_size_argument (String.toList "foo") (String.toList " 1")
      (String.toList "2") 1 2).2 (by decide) (by decide)).1,
   ((c10_size_argument (String.toList "foo") (String.toList "1_000")
      (String.toList "800") 1000 800).2 (by decide) (by decide)).1⟩
